import Mathlib

/-!
Shallow embedding of `scripts/generate.py` (the nanobanana image-generation
CLI) and proofs about it.

The script is a linear flow: validate the `GEMINI_API_KEY` environment
variable, send one generation request, scan the response parts for inline
image data, save the image under a timestamped filename, and report the
outcome through the process exit code.  External effects (the API call, the
behaviour of the image object's `save` method, filesystem success) are
modelled as explicit parameters; console output, client/network events and
save attempts are collected in traces so that reachability claims can be
stated.  String primitives used by the Python code (`str.join`, `str.strip`,
slicing, `str.lower`, substring tests) are modelled by list-of-character
functions with the same semantics on the inputs involved.
-/

namespace NanoBanana

/-- Model of Python `sep.join(xs)`: the elements of `xs` interleaved with
`sep`, empty for the empty list. -/
def pyJoin (sep : String) : List String → String
  | [] => ""
  | [x] => x
  | x :: xs => x ++ sep ++ pyJoin sep xs

/-- Model of Python `s.strip()`: remove leading and trailing whitespace. -/
def pyStrip (s : String) : String :=
  ⟨((s.data.dropWhile Char.isWhitespace).reverse.dropWhile Char.isWhitespace).reverse⟩

/-- Model of Python slicing `s[:n]` (first `n` code points). -/
def pyTake (s : String) (n : Nat) : String := ⟨s.data.take n⟩

/-- Model of Python `len(s)` (number of code points). -/
def pyLen (s : String) : Nat := s.data.length

/-- Model of Python `s.lower()` (the error strings involved are ASCII). -/
def pyLower (s : String) : String := ⟨s.data.map Char.toLower⟩

/-- Character-list substring scan, modelling Python `sub in s`. -/
def containsSub (sub : List Char) : List Char → Bool
  | [] => sub.isEmpty
  | c :: cs => sub.isPrefixOf (c :: cs) || containsSub sub cs

/-- Model of Python `sub in s` on strings. -/
def pyIn (sub s : String) : Bool := containsSub sub.data s.data

/-- The decimal digit character for `n < 10`. -/
def digitChar (n : Nat) : Char := Char.ofNat (48 + n)

/-- Decimal representation of a natural number up to 9999.  This covers every
field `datetime.strftime` formats here: `datetime` guarantees
`1 <= year <= 9999`, and the remaining fields are below 100. -/
def decimalStr (n : Nat) : String :=
  if n ≥ 1000 then
    ⟨[digitChar (n / 1000), digitChar (n / 100 % 10), digitChar (n / 10 % 10),
      digitChar (n % 10)]⟩
  else if n ≥ 100 then
    ⟨[digitChar (n / 100), digitChar (n / 10 % 10), digitChar (n % 10)]⟩
  else if n ≥ 10 then
    ⟨[digitChar (n / 10), digitChar (n % 10)]⟩
  else
    ⟨[digitChar n]⟩

/-- Zero-padding to two digits, modelling the `%m`, `%d`, `%H`, `%M`, `%S`
directives of `strftime`. -/
def pad2 (n : Nat) : String := if n < 10 then "0" ++ decimalStr n else decimalStr n

/-- The wall-clock instant `datetime.now()` returns, restricted to the fields
the script formats. -/
structure DateTime where
  year : Nat
  month : Nat
  day : Nat
  hour : Nat
  minute : Nat
  second : Nat
deriving DecidableEq, Repr

/-- The range invariants `datetime` guarantees for its fields. -/
def DateTime.valid (d : DateTime) : Prop :=
  1 ≤ d.year ∧ d.year ≤ 9999 ∧ 1 ≤ d.month ∧ d.month ≤ 12 ∧ 1 ≤ d.day ∧
    d.day ≤ 31 ∧ d.hour ≤ 23 ∧ d.minute ≤ 59 ∧ d.second ≤ 59

/-- Model of `datetime.now().strftime("%Y%m%d_%H%M%S")`. -/
def fmtTimestamp (d : DateTime) : String :=
  decimalStr d.year ++ pad2 d.month ++ pad2 d.day ++ "_" ++ pad2 d.hour ++
    pad2 d.minute ++ pad2 d.second

/-- The filename built at line 144: `f"nanobanana_{timestamp}.png"`. -/
def timestampName (d : DateTime) : String :=
  "nanobanana_" ++ fmtTimestamp d ++ ".png"

/-- Model of `Path(dir) / file` for a directory spelled without a trailing
slash: `pathlib` drops a bare `"."`, otherwise inserts one separator. -/
def pathJoin (dir file : String) : String :=
  if dir = "." then file else dir ++ "/" ++ file

/-- Model of `PurePosixPath.is_absolute`: the path starts with `/`. -/
def isAbsolutePath (p : String) : Bool :=
  match p.data with
  | [] => false
  | c :: _ => c = '/'

/-- Model of `Path.absolute()`: prepend the current working directory to a
relative path. -/
def absolutePath (cwd p : String) : String :=
  if isAbsolutePath p then p else pathJoin cwd p

/-- Model of `Path.name`: the final path component. -/
def basename (p : String) : String :=
  ⟨p.data.foldl (fun acc c => if c = '/' then [] else acc ++ [c]) []⟩

/-- One part of the API response: optional text and optional inline binary
image data (bytes as naturals). -/
structure Part where
  text : Option String
  inline_data : Option (List Nat)
deriving DecidableEq, Repr

/-- Observable external actions of one run: client construction, the
generation request (with the prompt sent), and the save attempts made on the
image object (`image.save(filepath, "PNG")`, `image.save(str(filepath))`,
`open(filepath, 'wb')` + `f.write(image)`). -/
inductive Event where
  | clientInit : Event
  | generateContent : String → Event
  | saveWithFormat : String → String → Event
  | savePlain : String → Event
  | writeBytes : String → Event
deriving DecidableEq, Repr

/-- Outcome of one externally-performed save attempt, as seen by the `try`
blocks of `save_image`. -/
inductive SaveOutcome where
  | ok : SaveOutcome
  | typeError : String → SaveOutcome
  | otherError : String → SaveOutcome
deriving DecidableEq, Repr

/-- External behaviour of the image object handed to `save_image`: whether it
has a `save` attribute, what `save(filepath, "PNG")` and `save(str(filepath))`
would do, and what the raw-bytes `write` fallback would do. -/
structure SaveSpec where
  hasSave : Bool
  withFormatOutcome : SaveOutcome
  plainOutcome : SaveOutcome
  rawOutcome : SaveOutcome
deriving DecidableEq, Repr

/-- Outcome of the external call `client.models.generate_content(...)` (also
standing in for an exception raised by `genai.Client(...)`): either a response
with its list of parts, or an exception with message `str(e)`. -/
inductive ApiOutcome where
  | success : List Part → ApiOutcome
  | failure : String → ApiOutcome
deriving DecidableEq, Repr

/-- The part-scanning loop of `generate_image` (lines 96-104): in order, print
each textual part, and return at the first remaining part that carries inline
data; if the loop ends, print the no-image error.  Result: printed lines and
the part returned via `part.as_image()` (if any). -/
def extract_parts : List Part → List String × Option Part
  | [] => (["ERROR: No image data found in API response."], none)
  | p :: rest =>
    match p.text with
    | some t =>
      let r := extract_parts rest
      (("Model response: " ++ t) :: r.1, r.2)
    | none =>
      match p.inline_data with
      | some _ => (["Image generated successfully!"], some p)
      | none => extract_parts rest

/-- The predicate on a part that makes the loop of lines 96-104 return it:
`text` is `None` and `inline_data` is not. -/
def wantsImage (p : Part) : Bool := p.text.isNone && p.inline_data.isSome

/-- The heuristic category assigned to a generation error (lines 110-125). -/
inductive ErrClass where
  | apiKey : ErrClass
  | quota : ErrClass
  | network : ErrClass
  | other : ErrClass
deriving DecidableEq, Repr

/-- Line 111: `"api key" in error_str or "authentication" in error_str`. -/
def matchApiKey (s : String) : Bool := pyIn "api key" s || pyIn "authentication" s

/-- Line 116: `"quota" in error_str or "rate limit" in error_str`. -/
def matchQuota (s : String) : Bool := pyIn "quota" s || pyIn "rate limit" s

/-- Line 121: `"network" in error_str or "connection" in error_str`. -/
def matchNetwork (s : String) : Bool := pyIn "network" s || pyIn "connection" s

/-- The `if`/`elif` chain of lines 111-125 on the lowered error string. -/
def classifyError (s : String) : ErrClass :=
  if matchApiKey s then .apiKey
  else if matchQuota s then .quota
  else if matchNetwork s then .network
  else .other

/-- The guidance block printed for each error category. -/
def guidanceLines : ErrClass → List String
  | .apiKey =>
    ["\nPossible causes:", "  - Invalid API key",
     "  - API key not properly set in GEMINI_API_KEY environment variable",
     "  - API key may have been revoked or expired"]
  | .quota =>
    ["\nPossible causes:", "  - API quota exceeded", "  - Rate limit reached",
     "  - Try again in a few moments"]
  | .network =>
    ["\nPossible causes:", "  - Network connectivity issues",
     "  - Firewall blocking API requests", "  - Check your internet connection"]
  | .other => []

/-- Everything printed by the `except` handler of `generate_image`
(lines 106-127) for an exception with message `e`. -/
def genErrorPrints (e : String) : List String :=
  ("ERROR: Failed to generate image: " ++ e) ::
    guidanceLines (classifyError (pyLower e))

/-- What `validate_api_key` prints before `sys.exit(1)` (lines 63-66). -/
def validateErrPrints : List String :=
  ["ERROR: GEMINI_API_KEY environment variable is not set.",
   "\nTo fix this, set your API key:",
   "  export GEMINI_API_KEY='your-api-key-here'",
   "\nGet your API key at: https://aistudio.google.com/apikey"]

/-- Result of `generate_image`: `sys.exit` raised inside `validate_api_key`
(a `SystemExit` escapes the `except Exception` handler), an image part, or a
`None` return. -/
inductive GenResult where
  | exited : Nat → GenResult
  | image : Part → GenResult
  | noImage : GenResult
deriving DecidableEq, Repr

/-- Trace and result of one `generate_image` call. -/
structure GenOut where
  prints : List String
  events : List Event
  result : GenResult
deriving DecidableEq, Repr

/-- `generate_image(prompt)` (lines 71-127).  `env` is
`os.getenv("GEMINI_API_KEY")` (`if not api_key` also fires on the empty
string); `api` gives the outcome of the generation request for the prompt
sent. -/
def generate_image (env : Option String) (prompt : String)
    (api : String → ApiOutcome) : GenOut :=
  match env with
  | none => ⟨validateErrPrints, [], .exited 1⟩
  | some key =>
    if key = "" then ⟨validateErrPrints, [], .exited 1⟩
    else
      let hdr := ["Generating image with Nano Banana Pro...",
        "Prompt: " ++ pyTake prompt 100 ++
          (if pyLen prompt > 100 then "..." else "") ++ "\n"]
      let evs := [Event.clientInit, Event.generateContent prompt]
      match api prompt with
      | .failure e => ⟨hdr ++ genErrorPrints e, evs, .noImage⟩
      | .success parts =>
        let r := extract_parts parts
        ⟨hdr ++ r.1, evs,
          match r.2 with
          | some p => .image p
          | none => .noImage⟩

/-- Trace and result of one `save_image` call. -/
structure SaveRun where
  prints : List String
  events : List Event
  result : Option String
deriving DecidableEq, Repr

/-- The lines printed by the `except` handler of `save_image`
(lines 161-166) for an exception with message `m`. -/
def saveErrorPrints (m : String) : List String :=
  ["ERROR: Failed to save image: " ++ m, "\nPossible causes:",
   "  - Insufficient permissions to write to the directory",
   "  - Disk space full", "  - Invalid output directory path"]

/-- `save_image(image, output_dir=".")` (lines 130-167).  `spec` is the
external behaviour of the image object and of the filesystem; `cwd` is the
ambient working directory used by `filepath.absolute()`; `now` is the instant
`datetime.now()` returns. -/
def save_image (spec : SaveSpec) (output_dir : String) (cwd : String)
    (now : DateTime) : SaveRun :=
  let filepath := pathJoin output_dir (timestampName now)
  let okRun : List Event → SaveRun := fun evs =>
    ⟨["\nImage saved to: " ++ absolutePath cwd filepath], evs, some filepath⟩
  let failRun : String → List Event → SaveRun := fun m evs =>
    ⟨saveErrorPrints m, evs, none⟩
  if spec.hasSave then
    match spec.withFormatOutcome with
    | .ok => okRun [.saveWithFormat filepath "PNG"]
    | .typeError _ =>
      match spec.plainOutcome with
      | .ok => okRun [.saveWithFormat filepath "PNG", .savePlain filepath]
      | .typeError m =>
        failRun m [.saveWithFormat filepath "PNG", .savePlain filepath]
      | .otherError m =>
        failRun m [.saveWithFormat filepath "PNG", .savePlain filepath]
    | .otherError m => failRun m [.saveWithFormat filepath "PNG"]
  else
    match spec.rawOutcome with
    | .ok => okRun [.writeBytes filepath]
    | .typeError m => failRun m [.writeBytes filepath]
    | .otherError m => failRun m [.writeBytes filepath]

/-- Whether the combination of `try` blocks in `save_image` succeeds for the
given image/filesystem behaviour. -/
def save_ok (spec : SaveSpec) : Bool :=
  if spec.hasSave then
    match spec.withFormatOutcome, spec.plainOutcome with
    | .ok, _ => true
    | .typeError _, .ok => true
    | .typeError _, _ => false
    | .otherError _, _ => false
  else
    match spec.rawOutcome with
    | .ok => true
    | _ => false

/-- Observable outcome of one process run: exit code, console lines, external
events, and the path of the image file written (if any). -/
structure ProgResult where
  exitCode : Nat
  prints : List String
  events : List Event
  saved : Option String
deriving DecidableEq, Repr

/-- The usage message of lines 173-176. -/
def usagePrints : List String :=
  ["ERROR: No prompt provided.",
   "\nUsage: python generate.py \"Your image prompt here\"",
   "\nExample:",
   "  python generate.py \"A fluffy cat sitting on a cloud\""]

/-- `main()` (lines 170-197).  `argv` is `sys.argv` (script name first);
falling off the end of `main` exits the process with code 0. -/
def mainRun (argv : List String) (env : Option String)
    (api : String → ApiOutcome) (spec : SaveSpec) (now : DateTime)
    (cwd : String) : ProgResult :=
  if argv.length < 2 then ⟨1, usagePrints, [], none⟩
  else
    let prompt := pyJoin " " argv.tail
    if pyStrip prompt = "" then ⟨1, ["ERROR: Prompt cannot be empty."], [], none⟩
    else
      let g := generate_image env prompt api
      match g.result with
      | .exited c => ⟨c, g.prints, g.events, none⟩
      | .noImage => ⟨1, g.prints, g.events, none⟩
      | .image _ =>
        let s := save_image spec "." cwd now
        match s.result with
        | none => ⟨1, g.prints ++ s.prints, g.events ++ s.events, none⟩
        | some fp =>
          ⟨0,
           g.prints ++ s.prints ++
             ["\n✓ Image generation complete!", "✓ Saved as: " ++ basename fp],
           g.events ++ s.events, some fp⟩

/-- Outcome of `pip install --user google-genai` followed (on a
`CalledProcessError`) by `pip install --break-system-packages google-genai`
(lines 18-56). -/
inductive InstallOutcome where
  | ok : InstallOutcome
  | retryOk : InstallOutcome
  | retryFails : InstallOutcome
  | unexpected : String → InstallOutcome
deriving DecidableEq, Repr

/-- Whether `from google import genai` succeeds at line 13, and if not, how
the auto-install attempt goes. -/
inductive ImportStatus where
  | available : ImportStatus
  | missing : InstallOutcome → ImportStatus
deriving DecidableEq, Repr

/-- Lines printed before any install attempt (lines 16-17). -/
def importHdrPrints : List String :=
  ["Required package 'google-genai' is not installed.",
   "Attempting to install automatically..."]

/-- Lines printed when an install attempt succeeds (lines 28-29 / 40-41). -/
def installOkPrints : List String :=
  ["Successfully installed google-genai!",
   "Please run the command again to use the newly installed package."]

/-- Lines printed when both install attempts fail (lines 44-51). -/
def installFailPrints : List String :=
  ["\nERROR: Failed to auto-install google-genai.",
   "\nPlease install manually with one of:",
   "  pip install --user google-genai",
   "  pip install --break-system-packages google-genai",
   "\nOr use a virtual environment:",
   "  python3 -m venv venv",
   "  source venv/bin/activate",
   "  pip install google-genai"]

/-- One whole process run of `scripts/generate.py`: the import/auto-install
block of lines 12-56, then `main()`. -/
def runProgram (imp : ImportStatus) (argv : List String) (env : Option String)
    (api : String → ApiOutcome) (spec : SaveSpec) (now : DateTime)
    (cwd : String) : ProgResult :=
  match imp with
  | .available => mainRun argv env api spec now cwd
  | .missing .ok => ⟨0, importHdrPrints ++ installOkPrints, [], none⟩
  | .missing .retryOk => ⟨0, importHdrPrints ++ installOkPrints, [], none⟩
  | .missing .retryFails => ⟨1, importHdrPrints ++ installFailPrints, [], none⟩
  | .missing (.unexpected m) =>
    ⟨1, importHdrPrints ++
        ["\nERROR: Unexpected error during installation: " ++ m,
         "\nPlease install manually with: pip install --user google-genai"],
      [], none⟩

/-- The `Model response: ...` lines printed for the textual parts of a
list. -/
def textMsgs (l : List Part) : List String :=
  (l.filterMap Part.text).map (fun t => "Model response: " ++ t)

/-- How many guidance blocks a list of printed lines contains, counted by the
shared `\nPossible causes:` header each block starts with. -/
def countGuidance (ls : List String) : Nat :=
  (ls.filter (fun l => l == "\nPossible causes:")).length

/-- An image object whose generic save call succeeds, with a writable
filesystem. -/
def okSpec : SaveSpec := ⟨true, .ok, .ok, .ok⟩

/-- A sample wall-clock instant. -/
def sampleNow : DateTime := ⟨2026, 10, 12, 13, 30, 45⟩

/-- A sample response part carrying only inline image data. -/
def imgPart : Part := ⟨none, some [137, 80, 78, 71]⟩

/-- A sample API behaviour: every request yields one image-bearing part. -/
def sampleApi : String → ApiOutcome := fun _ => .success [imgPart]

lemma extract_parts_snd (parts : List Part) :
    (extract_parts parts).2 = parts.find? wantsImage := by
  induction parts with
  | nil => rfl
  | cons p rest ih =>
    cases hp : p.text with
    | some t =>
      simp [extract_parts, hp, List.find?, wantsImage, ih]
    | none =>
      cases hq : p.inline_data with
      | some b => simp [extract_parts, hp, hq, List.find?, wantsImage]
      | none => simp [extract_parts, hp, hq, List.find?, wantsImage, ih]

lemma extract_parts_fst_none (parts : List Part)
    (h : parts.find? wantsImage = none) :
    (extract_parts parts).1 =
      textMsgs parts ++ ["ERROR: No image data found in API response."] := by
  induction parts with
  | nil => rfl
  | cons p rest ih =>
    rw [List.find?_eq_none] at h
    have hrest : rest.find? wantsImage = none := by
      rw [List.find?_eq_none]
      exact fun x hx => h x (List.mem_cons_of_mem p hx)
    have hp : ¬wantsImage p = true := h p (List.mem_cons_self p rest)
    cases ht : p.text with
    | some t =>
      simp [extract_parts, ht, textMsgs, List.filterMap_cons, ih hrest]
    | none =>
      cases hq : p.inline_data with
      | some b => exact absurd (by simp [wantsImage, ht, hq]) hp
      | none =>
        simp [extract_parts, ht, hq, textMsgs, List.filterMap_cons, ih hrest]

lemma extract_parts_fst_some (parts : List Part) (p : Part)
    (h : parts.find? wantsImage = some p) :
    (extract_parts parts).1 =
      textMsgs (parts.takeWhile fun q => !wantsImage q) ++
        ["Image generated successfully!"] := by
  induction parts with
  | nil => simp [List.find?] at h
  | cons q rest ih =>
    cases ht : q.text with
    | some t =>
      have hq : wantsImage q = false := by simp [wantsImage, ht]
      rw [List.find?_cons_of_neg _ (by simp [hq])] at h
      simp [extract_parts, ht, List.takeWhile_cons, hq, textMsgs,
        List.filterMap_cons, ih h]
    | none =>
      cases hd : q.inline_data with
      | some b =>
        have hq : wantsImage q = true := by simp [wantsImage, ht, hd]
        simp [extract_parts, ht, hd, List.takeWhile_cons, hq, textMsgs]
      | none =>
        have hq : wantsImage q = false := by simp [wantsImage, ht, hd]
        rw [List.find?_cons_of_neg _ (by simp [hq])] at h
        simp [extract_parts, ht, hd, List.takeWhile_cons, hq, textMsgs,
          List.filterMap_cons, ih h]

lemma save_image_result (spec : SaveSpec) (dir cwd : String) (now : DateTime) :
    (save_image spec dir cwd now).result =
      if save_ok spec then some (pathJoin dir (timestampName now)) else none := by
  rcases spec with ⟨hs, wf, pl, raw⟩
  cases hs <;> cases wf <;> cases pl <;> cases raw <;>
    simp [save_image, save_ok]

lemma save_image_prints_ok (spec : SaveSpec) (dir cwd : String) (now : DateTime)
    (h : save_ok spec = true) :
    (save_image spec dir cwd now).prints =
      ["\nImage saved to: " ++ absolutePath cwd (pathJoin dir (timestampName now))] := by
  rcases spec with ⟨hs, wf, pl, raw⟩
  cases hs <;> cases wf <;> cases pl <;> cases raw <;>
    simp_all [save_image, save_ok]

lemma digitChar_isDigit : ∀ k, k < 10 → (digitChar k).isDigit = true := by decide

lemma decimalStr_four (n : Nat) (h1 : 1000 ≤ n) (h2 : n ≤ 9999) :
    (decimalStr n).data.length = 4 ∧ (decimalStr n).data.all Char.isDigit = true := by
  rw [decimalStr, if_pos h1]
  refine ⟨rfl, ?_⟩
  simp only [List.all_cons, List.all_nil, Bool.and_true, Bool.and_eq_true]
  exact ⟨digitChar_isDigit _ (by omega), digitChar_isDigit _ (by omega),
    digitChar_isDigit _ (by omega), digitChar_isDigit _ (by omega)⟩

lemma pad2_two (n : Nat) (h : n ≤ 99) :
    (pad2 n).data.length = 2 ∧ (pad2 n).data.all Char.isDigit = true := by
  by_cases hn : n < 10
  · rw [pad2, if_pos hn, decimalStr, if_neg (by omega), if_neg (by omega),
      if_neg (by omega), String.data_append]
    refine ⟨rfl, ?_⟩
    simp only [List.all_append, List.all_cons, List.all_nil, Bool.and_true,
      Bool.and_eq_true]
    exact ⟨by decide, digitChar_isDigit _ (by omega)⟩
  · rw [pad2, if_neg hn, decimalStr, if_neg (by omega), if_neg (by omega),
      if_pos (by omega)]
    refine ⟨rfl, ?_⟩
    simp only [List.all_cons, List.all_nil, Bool.and_true, Bool.and_eq_true]
    exact ⟨digitChar_isDigit _ (by omega), digitChar_isDigit _ (by omega)⟩

lemma timestampName_not_abs (now : DateTime) :
    isAbsolutePath (timestampName now) = false := by
  rw [isAbsolutePath, timestampName, String.data_append, String.data_append]
  rfl

/-- C4: whenever the credential environment variable is absent, the run exits
with code 1 and prints exactly the setup instructions, and no client
construction or generation request happens (the event trace is empty). -/
theorem C4_missing_credential (argv : List String) (api : String → ApiOutcome)
    (spec : SaveSpec) (now : DateTime) (cwd : String)
    (h1 : 2 ≤ argv.length) (h2 : pyStrip (pyJoin " " argv.tail) ≠ "") :
    runProgram .available argv none api spec now cwd =
      ⟨1, validateErrPrints, [], none⟩ := by
  rw [runProgram, mainRun, if_neg (by omega), if_neg h2]
  rfl

theorem C4_missing_credential_witness :
    runProgram .available ["generate.py", "hello"] none sampleApi okSpec
      sampleNow "/work" = ⟨1, validateErrPrints, [], none⟩ :=
  C4_missing_credential ["generate.py", "hello"] sampleApi okSpec sampleNow
    "/work" (by decide) (by decide)

/-- C7: with at least one command-line argument, the prompt sent in the
generation request is all the arguments joined with single spaces; in
particular `["A", "red", "apple"]` joins to `"A red apple"`. -/
theorem C7_prompt_join (name key : String) (args : List String)
    (api : String → ApiOutcome) (spec : SaveSpec) (now : DateTime)
    (cwd : String) (hargs : args ≠ []) (hkey : key ≠ "")
    (hp : pyStrip (pyJoin " " args) ≠ "") :
    Event.generateContent (pyJoin " " args) ∈
      (runProgram .available (name :: args) (some key) api spec now cwd).events
    ∧ pyJoin " " ["A", "red", "apple"] = "A red apple" := by
  refine ⟨?_, by decide⟩
  have hlen : 0 < args.length := List.length_pos.mpr hargs
  rw [runProgram, mainRun, if_neg (by simp only [List.length_cons]; omega)]
  simp only [List.tail_cons]
  rw [if_neg hp, generate_image]
  simp only [if_neg hkey]
  cases api (pyJoin " " args) with
  | failure e => simp
  | success parts =>
    cases hr : (extract_parts parts).2 with
    | none => simp [hr]
    | some p =>
      cases hs : (save_image spec "." cwd now).result with
      | none => simp [hr, hs]
      | some fp => simp [hr, hs]

theorem C7_prompt_join_witness :
    Event.generateContent "A red apple" ∈
      (runProgram .available ["generate.py", "A", "red", "apple"] (some "k")
        sampleApi okSpec sampleNow "/work").events := by
  have h := C7_prompt_join "generate.py" "k" ["A", "red", "apple"] sampleApi
    okSpec sampleNow "/work" (by decide) (by decide) (by decide)
  exact h.2 ▸ h.1

/-- C8: with no command-line arguments, or a joined prompt that strips to the
empty string, the run exits with code 1 after printing the usage message or
the empty-prompt error, performing no client or network activity. -/
theorem C8_usage_errors (argv : List String) (env : Option String)
    (api : String → ApiOutcome) (spec : SaveSpec) (now : DateTime)
    (cwd : String)
    (h : argv.length < 2 ∨ pyStrip (pyJoin " " argv.tail) = "") :
    runProgram .available argv env api spec now cwd =
        ⟨1, usagePrints, [], none⟩ ∨
      runProgram .available argv env api spec now cwd =
        ⟨1, ["ERROR: Prompt cannot be empty."], [], none⟩ := by
  by_cases hl : argv.length < 2
  · left
    rw [runProgram, mainRun, if_pos hl]
  · right
    have hs : pyStrip (pyJoin " " argv.tail) = "" := h.resolve_left hl
    rw [runProgram, mainRun, if_neg hl, if_pos hs]

theorem C8_usage_errors_witness :
    runProgram .available ["generate.py"] (some "k") sampleApi okSpec
        sampleNow "/work" = ⟨1, usagePrints, [], none⟩ ∨
      runProgram .available ["generate.py"] (some "k") sampleApi okSpec
        sampleNow "/work" =
        ⟨1, ["ERROR: Prompt cannot be empty."], [], none⟩ :=
  C8_usage_errors ["generate.py"] (some "k") sampleApi okSpec sampleNow
    "/work" (Or.inl (by decide))

lemma countGuidance_cons_ne (s : String) (l : List String)
    (h : s ≠ "\nPossible causes:") :
    countGuidance (s :: l) = countGuidance l := by
  rw [countGuidance, List.filter_cons, if_neg (by simp [h]), countGuidance]

/-- C10: error classification is a fixed-priority chain on the lowered
message: credential substrings first, then quota/rate-limit, then
network/connection, with at most one guidance block printed even when the
message matches several categories. -/
theorem C10_error_priority (e : String) :
    (matchApiKey (pyLower e) = true →
      classifyError (pyLower e) = .apiKey) ∧
    (matchApiKey (pyLower e) = false → matchQuota (pyLower e) = true →
      classifyError (pyLower e) = .quota) ∧
    (matchApiKey (pyLower e) = false → matchQuota (pyLower e) = false →
      matchNetwork (pyLower e) = true → classifyError (pyLower e) = .network) ∧
    (matchApiKey (pyLower e) = false → matchQuota (pyLower e) = false →
      matchNetwork (pyLower e) = false → classifyError (pyLower e) = .other) ∧
    countGuidance (genErrorPrints e) ≤ 1 := by
  have hhead : ("ERROR: Failed to generate image: " ++ e).data.head? =
      some 'E' := by
    rw [String.data_append]; rfl
  have hne : ("ERROR: Failed to generate image: " ++ e) ≠
      "\nPossible causes:" := by
    intro hq
    rw [hq] at hhead
    exact absurd hhead (by decide)
  refine ⟨fun hA => ?_, fun hA hQ => ?_, fun hA hQ hN => ?_,
    fun hA hQ hN => ?_, ?_⟩
  · rw [classifyError, if_pos hA]
  · rw [classifyError, if_neg (by simp [hA]), if_pos hQ]
  · rw [classifyError, if_neg (by simp [hA]), if_neg (by simp [hQ]),
      if_pos hN]
  · rw [classifyError, if_neg (by simp [hA]), if_neg (by simp [hQ]),
      if_neg (by simp [hN])]
  · rw [genErrorPrints, countGuidance_cons_ne _ _ hne]
    cases classifyError (pyLower e) <;> decide

theorem C10_error_priority_witness :
    classifyError (pyLower "API key rejected; quota exceeded; network down")
        = .apiKey ∧
      countGuidance
        (genErrorPrints "API key rejected; quota exceeded; network down")
        ≤ 1 :=
  ⟨(C10_error_priority "API key rejected; quota exceeded; network down").1
      (by decide),
    (C10_error_priority
      "API key rejected; quota exceeded; network down").2.2.2.2⟩

/-- C5: `save_image` first tries the generic save call with the PNG format
hint; on a `TypeError` it retries with the plain path-only form; an object
without a `save` attribute is written as raw bytes; and every failure is
caught, the function returning `None` (here: `none`) instead of
propagating. -/
theorem C5_save_fallback (spec : SaveSpec) (dir cwd : String)
    (now : DateTime) :
    ((save_image spec dir cwd now).result = none ∨
      (save_image spec dir cwd now).result =
        some (pathJoin dir (timestampName now))) ∧
    (spec.hasSave = true →
      (save_image spec dir cwd now).events.head? =
        some (.saveWithFormat (pathJoin dir (timestampName now)) "PNG")) ∧
    (∀ m, spec.hasSave = true → spec.withFormatOutcome = .typeError m →
      (save_image spec dir cwd now).events =
        [.saveWithFormat (pathJoin dir (timestampName now)) "PNG",
         .savePlain (pathJoin dir (timestampName now))]) ∧
    (spec.hasSave = false →
      (save_image spec dir cwd now).events =
        [.writeBytes (pathJoin dir (timestampName now))]) ∧
    ((save_image spec dir cwd now).result = none ↔ save_ok spec = false) := by
  rcases spec with ⟨hs, wf, pl, raw⟩
  cases hs <;> cases wf <;> cases pl <;> cases raw <;>
    simp [save_image, save_ok]

theorem C5_save_fallback_witness :
    (save_image ⟨true, .typeError "argument mismatch", .ok, .ok⟩ "." "/work"
        sampleNow).events =
      [.saveWithFormat "nanobanana_20261012_133045.png" "PNG",
       .savePlain "nanobanana_20261012_133045.png"] := by
  have h := (C5_save_fallback ⟨true, .typeError "argument mismatch", .ok, .ok⟩
    "." "/work" sampleNow).2.2.1 "argument mismatch" rfl rfl
  rw [h]
  decide

/-- C6: the filename is exactly `nanobanana_` + `YYYYMMDD_HHMMSS` + `.png`,
joined to the target directory; under the `datetime` field invariants (and a
four-digit year, true at any call time) it matches
`nanobanana_\d8_\d6\.png`. -/
theorem C6_filename_pattern (now : DateTime) (dir : String)
    (hv : now.valid) (hy : 1000 ≤ now.year) :
    ∃ d8 d6 : String,
      timestampName now = "nanobanana_" ++ d8 ++ "_" ++ d6 ++ ".png" ∧
      d8.data.length = 8 ∧ d8.data.all Char.isDigit = true ∧
      d6.data.length = 6 ∧ d6.data.all Char.isDigit = true ∧
      ∀ (spec : SaveSpec) (cwd fp : String),
        (save_image spec dir cwd now).result = some fp →
        fp = pathJoin dir (timestampName now) := by
  obtain ⟨h1, h2, h3, h4, h5, h6, h7, h8, h9⟩ := hv
  refine ⟨decimalStr now.year ++ pad2 now.month ++ pad2 now.day,
    pad2 now.hour ++ pad2 now.minute ++ pad2 now.second, ?_, ?_, ?_, ?_, ?_,
    ?_⟩
  · rw [timestampName, fmtTimestamp]
    simp only [String.append_assoc]
  · obtain ⟨hl, _⟩ := decimalStr_four now.year hy h2
    obtain ⟨hm, _⟩ := pad2_two now.month (by omega)
    obtain ⟨hd, _⟩ := pad2_two now.day (by omega)
    simp only [String.data_append, List.length_append]
    omega
  · obtain ⟨_, hl⟩ := decimalStr_four now.year hy h2
    obtain ⟨_, hm⟩ := pad2_two now.month (by omega)
    obtain ⟨_, hd⟩ := pad2_two now.day (by omega)
    simp only [String.data_append, List.all_append, hl, hm, hd,
      Bool.and_self]
  · obtain ⟨hh, _⟩ := pad2_two now.hour (by omega)
    obtain ⟨hm, _⟩ := pad2_two now.minute (by omega)
    obtain ⟨hs, _⟩ := pad2_two now.second (by omega)
    simp only [String.data_append, List.length_append]
    omega
  · obtain ⟨_, hh⟩ := pad2_two now.hour (by omega)
    obtain ⟨_, hm⟩ := pad2_two now.minute (by omega)
    obtain ⟨_, hs⟩ := pad2_two now.second (by omega)
    simp only [String.data_append, List.all_append, hh, hm, hs,
      Bool.and_self]
  · intro spec cwd fp hres
    rw [save_image_result] at hres
    by_cases hok : save_ok spec = true
    · rw [if_pos hok] at hres
      exact (Option.some_inj.mp hres).symm
    · rw [if_neg hok] at hres
      exact absurd hres (by simp)

theorem C6_filename_pattern_witness :
    ∃ d8 d6 : String,
      timestampName sampleNow = "nanobanana_" ++ d8 ++ "_" ++ d6 ++ ".png" ∧
      d8.data.length = 8 ∧ d8.data.all Char.isDigit = true ∧
      d6.data.length = 6 ∧ d6.data.all Char.isDigit = true ∧
      ∀ (spec : SaveSpec) (cwd fp : String),
        (save_image spec "." cwd sampleNow).result = some fp →
        fp = pathJoin "." (timestampName sampleNow) :=
  C6_filename_pattern sampleNow "."
    (by simp only [DateTime.valid]; decide) (by decide)

/-- C9: a part carrying both text and inline image data is treated as
textual: its text is printed and it is never the returned image; if every
image-bearing part also bears text, the scan prints all texts, reports that
no image data was found, and returns `none`. -/
theorem C9_text_precedence (parts : List Part) :
    (∀ p : Part, p.text.isSome = true → (extract_parts parts).2 ≠ some p) ∧
    ((∀ p ∈ parts, p.inline_data.isSome = true → p.text.isSome = true) →
      (extract_parts parts).2 = none ∧
      (extract_parts parts).1 =
        textMsgs parts ++ ["ERROR: No image data found in API response."]) := by
  constructor
  · intro p hp hsome
    rw [extract_parts_snd] at hsome
    have := List.find?_some hsome
    rw [wantsImage] at this
    simp only [Bool.and_eq_true, Option.isNone_iff_eq_none] at this
    rw [this.1] at hp
    exact absurd hp (by decide)
  · intro h
    have hfind : parts.find? wantsImage = none := by
      rw [List.find?_eq_none]
      intro p hp hw
      rw [wantsImage] at hw
      simp only [Bool.and_eq_true, Option.isNone_iff_eq_none] at hw
      have := h p hp hw.2
      rw [hw.1] at this
      exact absurd this (by decide)
    exact ⟨by rw [extract_parts_snd, hfind],
      extract_parts_fst_none parts hfind⟩

theorem C9_text_precedence_witness :
    (extract_parts [Part.mk (some "here is your image") (some [1, 2]),
        Part.mk (some "done") none]).2 = none ∧
      (extract_parts [Part.mk (some "here is your image") (some [1, 2]),
        Part.mk (some "done") none]).1 =
        ["Model response: here is your image", "Model response: done",
         "ERROR: No image data found in API response."] := by
  have h := (C9_text_precedence [Part.mk (some "here is your image")
    (some [1, 2]), Part.mk (some "done") none]).2 (by decide)
  refine ⟨h.1, ?_⟩
  rw [h.2]
  decide

/-- C2 counterexample: with the default output directory a successful save
returns `nanobanana_<ts>.png` itself, which is not an absolute path (the
absolute path is only printed). -/
theorem C2_counterexample :
    (save_image okSpec "." "/work" sampleNow).result =
      some "nanobanana_20261012_133045.png" ∧
    isAbsolutePath "nanobanana_20261012_133045.png" = false := by decide

/-- C2 amended: on every successful save, `save_image` prints the absolute
path of the written file but returns `Path(output_dir) / filename`, which is
relative whenever the output directory is (in particular for the default
`"."`, where the bare filename is returned). -/
theorem C2_save_return_amended (spec : SaveSpec) (dir cwd : String)
    (now : DateTime) (fp : String)
    (h : (save_image spec dir cwd now).result = some fp) :
    fp = pathJoin dir (timestampName now) ∧
    (save_image spec dir cwd now).prints =
      ["\nImage saved to: " ++ absolutePath cwd fp] ∧
    (dir = "." → isAbsolutePath fp = false) := by
  have hres := save_image_result spec dir cwd now
  rw [h] at hres
  by_cases hok : save_ok spec = true
  · rw [if_pos hok] at hres
    have hfp : fp = pathJoin dir (timestampName now) := Option.some_inj.mp hres
    refine ⟨hfp, ?_, ?_⟩
    · rw [save_image_prints_ok spec dir cwd now hok, hfp]
    · intro hdir
      rw [hfp, hdir, pathJoin, if_pos rfl]
      exact timestampName_not_abs now
  · rw [if_neg hok] at hres
    exact absurd hres (by simp)

theorem C2_save_return_amended_witness :
    "nanobanana_20261012_133045.png" = pathJoin "." (timestampName sampleNow) ∧
    (save_image okSpec "." "/work" sampleNow).prints =
      ["\nImage saved to: " ++
        absolutePath "/work" "nanobanana_20261012_133045.png"] ∧
    ("." = "." → isAbsolutePath "nanobanana_20261012_133045.png" = false) :=
  C2_save_return_amended okSpec "." "/work" sampleNow
    "nanobanana_20261012_133045.png" (by decide)

/-- C3 counterexample: a response whose only part carries both text and
inline image data yields no returned image at all — the loop prints the text
and then reports that no image data was found — contradicting "returns the
first part carrying inline binary image data". -/
theorem C3_counterexample :
    (Part.mk (some "commentary") (some [1])).inline_data.isSome = true ∧
    (extract_parts [Part.mk (some "commentary") (some [1])]).2 = none ∧
    (extract_parts [Part.mk (some "commentary") (some [1])]).1 =
      ["Model response: commentary",
       "ERROR: No image data found in API response."] := by decide

/-- C3 amended: parts are processed in order; every textual part encountered
before the returned part is printed (a part with text is always treated as
textual, even if it also carries image data); the part returned is the first
one with no text and inline binary data, and iteration stops there; if no
such part exists, all textual parts are printed, "no image data found" is
reported, `None` is returned, and the program exits non-zero. -/
theorem C3_parts_amended (parts : List Part) :
    (extract_parts parts).2 = parts.find? wantsImage ∧
    (parts.find? wantsImage = none →
      (extract_parts parts).1 =
        textMsgs parts ++ ["ERROR: No image data found in API response."]) ∧
    (∀ p, parts.find? wantsImage = some p →
      (extract_parts parts).1 =
        textMsgs (parts.takeWhile fun q => !wantsImage q) ++
          ["Image generated successfully!"]) ∧
    (∀ (argv : List String) (key : String) (api : String → ApiOutcome)
        (spec : SaveSpec) (now : DateTime) (cwd : String),
      parts.find? wantsImage = none → 2 ≤ argv.length →
      pyStrip (pyJoin " " argv.tail) ≠ "" → key ≠ "" →
      api (pyJoin " " argv.tail) = .success parts →
      (runProgram .available argv (some key) api spec now cwd).exitCode = 1) := by
  refine ⟨extract_parts_snd parts, extract_parts_fst_none parts,
    fun p hp => extract_parts_fst_some parts p hp, ?_⟩
  intro argv key api spec now cwd hfind hlen hp hkey happi
  rw [runProgram, mainRun, if_neg (by omega), if_neg hp, generate_image]
  simp only [if_neg hkey]
  rw [happi]
  have h2 : (extract_parts parts).2 = none := by
    rw [extract_parts_snd, hfind]
  simp [h2]

theorem C3_parts_amended_witness :
    (runProgram .available ["generate.py", "hi"] (some "k")
      (fun _ => .success [Part.mk (some "commentary") (some [1])]) okSpec
      sampleNow "/work").exitCode = 1 :=
  (C3_parts_amended [Part.mk (some "commentary") (some [1])]).2.2.2
    ["generate.py", "hi"] "k"
    (fun _ => .success [Part.mk (some "commentary") (some [1])]) okSpec
    sampleNow "/work" (by decide) (by decide) (by decide) (by decide) rfl

lemma mainRun_cases (argv : List String) (env : Option String)
    (api : String → ApiOutcome) (spec : SaveSpec) (now : DateTime)
    (cwd : String) :
    ((mainRun argv env api spec now cwd).exitCode = 0 ∨
      (mainRun argv env api spec now cwd).exitCode = 1) ∧
    ((mainRun argv env api spec now cwd).exitCode = 0 ↔
      (mainRun argv env api spec now cwd).saved ≠ none) ∧
    (∀ fp, (mainRun argv env api spec now cwd).saved = some fp →
      (mainRun argv env api spec now cwd).exitCode = 0 ∧
      ("✓ Saved as: " ++ basename fp) ∈
        (mainRun argv env api spec now cwd).prints) := by
  rw [mainRun]
  by_cases hl : argv.length < 2
  · simp [hl]
  · simp only [if_neg hl]
    by_cases hs : pyStrip (pyJoin " " argv.tail) = ""
    · simp [hs]
    · simp only [if_neg hs]
      cases env with
      | none => simp [generate_image]
      | some key =>
        by_cases hk : key = ""
        · simp [generate_image, hk]
        · simp only [generate_image, if_neg hk]
          cases api (pyJoin " " argv.tail) with
          | failure e => simp
          | success parts =>
            cases hr : (extract_parts parts).2 with
            | none => simp [hr]
            | some p =>
              simp only [hr]
              cases hsv : (save_image spec "." cwd now).result with
              | none => simp [hsv]
              | some fp => simp [hsv, List.mem_append]

/-- C1 counterexample: when the client library is missing and the automatic
`pip install --user` succeeds, the process exits with code 0 although no
image was generated or saved. -/
theorem C1_counterexample :
    (runProgram (.missing .ok) ["generate.py", "A", "red", "apple"]
      (some "key") sampleApi okSpec sampleNow "/work").exitCode = 0 ∧
    (runProgram (.missing .ok) ["generate.py", "A", "red", "apple"]
      (some "key") sampleApi okSpec sampleNow "/work").saved = none := by
  decide

/-- C1 amended: the exit code is always 0 or 1; when the client library
imports, the exit code is 0 exactly when an image file was saved (and the
confirmation naming the saved file is printed); a successful dependency
auto-install also exits 0, without saving anything; a failed auto-install
exits 1. -/
theorem C1_exit_amended (imp : ImportStatus) (argv : List String)
    (env : Option String) (api : String → ApiOutcome) (spec : SaveSpec)
    (now : DateTime) (cwd : String) :
    ((runProgram imp argv env api spec now cwd).exitCode = 0 ∨
      (runProgram imp argv env api spec now cwd).exitCode = 1) ∧
    (imp = .available →
      ((runProgram imp argv env api spec now cwd).exitCode = 0 ↔
        (runProgram imp argv env api spec now cwd).saved ≠ none)) ∧
    (∀ fp, (runProgram imp argv env api spec now cwd).saved = some fp →
      (runProgram imp argv env api spec now cwd).exitCode = 0 ∧
      ("✓ Saved as: " ++ basename fp) ∈
        (runProgram imp argv env api spec now cwd).prints) ∧
    ((imp = .missing .ok ∨ imp = .missing .retryOk) →
      (runProgram imp argv env api spec now cwd).exitCode = 0 ∧
      (runProgram imp argv env api spec now cwd).saved = none) ∧
    ((imp = .missing .retryFails ∨
        (∃ m, imp = .missing (.unexpected m))) →
      (runProgram imp argv env api spec now cwd).exitCode = 1) := by
  cases imp with
  | available =>
    have h := mainRun_cases argv env api spec now cwd
    refine ⟨h.1, fun _ => h.2.1, fun fp hfp => h.2.2 fp hfp, ?_, ?_⟩
    · rintro (hc | hc) <;> simp at hc
    · rintro (hc | ⟨m, hc⟩) <;> simp at hc
  | missing io => cases io <;> simp [runProgram]

theorem C1_exit_amended_witness :
    (runProgram .available ["generate.py", "hi"] (some "k") sampleApi okSpec
        sampleNow "/work").exitCode = 0 ↔
      (runProgram .available ["generate.py", "hi"] (some "k") sampleApi
        okSpec sampleNow "/work").saved ≠ none :=
  (C1_exit_amended .available ["generate.py", "hi"] (some "k") sampleApi
    okSpec sampleNow "/work").2.1 rfl

end NanoBanana
